import Mathlib

/-!
Shallow embedding of the Helpike AV1 media-conversion server
(src/job_manager.py, src/converter.py, src/app.py) and verification of
its specification claims.

External effects (ffmpeg subprocess invocations, the filesystem) are
modelled by an explicit environment `Env`: each encoder invocation site
in converter.py is one `Tier`, and the environment decides whether that
invocation returns exit code 0 (`RunOutcome.ok`), a nonzero exit code
with the given stderr text (`RunOutcome.fail`), or raises an exception
whose text is the given string (`RunOutcome.exn`; subprocess timeouts
raise `TimeoutExpired` and are covered by `exn`).  File-existence checks
(`os.path.exists`) and `os.path.getsize` are likewise answered by the
environment; a `getsize` answer of `Except.error m` models a raised
exception whose text is `m`.
-/

namespace Helpike

/-- job_manager.py, class `JobStatus`: the four lifecycle states. -/
inductive JobStatus where
  | pending
  | processing
  | completed
  | error
  deriving DecidableEq

/-- job_manager.py: the `.value` wire string of each `JobStatus` member. -/
def JobStatus.value : JobStatus → String
  | .pending => "pendente"
  | .processing => "processando"
  | .completed => "concluido"
  | .error => "erro"

/-- job_manager.py, dataclass `JobData`.  Byte sizes are natural numbers:
the Python fields are declared float but only ever hold results of `len`
and `os.path.getsize`, which are non-negative integers. -/
structure JobData where
  job_id : String
  status : JobStatus
  original_path : String
  converted_path : String
  original_size_bytes : Nat
  converted_size_bytes : Nat
  error_message : String
  deriving DecidableEq

/-- job_manager.py: the `JobManager._jobs` dictionary, modelled as a map
from job id to job data (`none` = key absent). -/
def Jobs : Type := String → Option JobData

/-- The defaults of the `JobData` dataclass applied by `create_job`. -/
def freshJob (job_id original_path : String) (original_size : Nat) : JobData :=
  JobData.mk job_id JobStatus.pending original_path "" original_size 0 ""

/-- job_manager.py: `JobManager.get_job`. -/
def get_job (jobs : Jobs) (job_id : String) : Option JobData :=
  jobs job_id

/-- job_manager.py: `JobManager.create_job`; the fresh uuid4 identifier
is passed in as `job_id` (uuid generation is external randomness). -/
def create_job (jobs : Jobs) (job_id original_path : String) (original_size : Nat) :
    String × Jobs :=
  (job_id, fun k => if k = job_id then some (freshJob job_id original_path original_size)
   else jobs k)

/-- job_manager.py: `JobManager.update_status`; mutates the entry only
when the id is present (`if job_id in self._jobs`). -/
def update_status (jobs : Jobs) (job_id : String) (status : JobStatus) : Jobs :=
  fun k => if k = job_id then
    (jobs k).map (fun job => JobData.mk job.job_id status job.original_path
      job.converted_path job.original_size_bytes job.converted_size_bytes job.error_message)
   else jobs k

/-- job_manager.py: `JobManager.set_completed`; sets status, converted
path and converted size, only when the id is present. -/
def set_completed (jobs : Jobs) (job_id converted_path : String) (converted_size : Nat) :
    Jobs :=
  fun k => if k = job_id then
    (jobs k).map (fun job => JobData.mk job.job_id JobStatus.completed job.original_path
      converted_path job.original_size_bytes converted_size job.error_message)
   else jobs k

/-- job_manager.py: `JobManager.set_error`; sets status and error
message, only when the id is present. -/
def set_error (jobs : Jobs) (job_id error_message : String) : Jobs :=
  fun k => if k = job_id then
    (jobs k).map (fun job => JobData.mk job.job_id JobStatus.error job.original_path
      job.converted_path job.original_size_bytes job.converted_size_bytes error_message)
   else jobs k

/-! ### Path helpers (Python `pathlib` / `os.path` semantics).
Implemented by structural recursion on character lists so that every
definition evaluates by kernel reduction. -/

/-- Python `str.split(sep)` for a one-character separator. -/
def splitOnChar (sep : Char) : List Char → List (List Char)
  | [] => [[]]
  | c :: rest =>
    let r := splitOnChar sep rest
    if c == sep then [] :: r
    else (c :: r.headD []) :: r.tail

/-- Python `str.lower()` (ASCII case folding). -/
def strLower (s : String) : String :=
  String.mk (s.data.map Char.toLower)

/-- `pathlib.PurePath.name`: the final path component (POSIX). -/
def pathName (p : String) : String :=
  String.mk ((splitOnChar '/' p.data).getLastD [])

/-- Index of the last occurrence of a dot in a character list. -/
def rfindDot (cs : List Char) : Option Nat :=
  ((cs.enum.filter (fun q => q.2 == '.')).map (fun q => q.1)).getLast?

/-- `pathlib.PurePath.suffix`: the extension of the final component,
empty unless the last dot sits strictly inside the name. -/
def pathSuffix (p : String) : String :=
  let name := (pathName p).data
  match rfindDot name with
  | some i => if 0 < i ∧ i < name.length - 1 then String.mk (name.drop i) else ""
  | none => ""

/-- `pathlib.PurePath.stem`: the final component minus its suffix. -/
def pathStem (p : String) : String :=
  let name := (pathName p).data
  String.mk (name.take (name.length - (pathSuffix p).data.length))

/-- `os.path.join` for two POSIX arguments. -/
def osPathJoin (a b : String) : String :=
  if b.data.headD ' ' == '/' then b
  else if a = "" then b
  else if a.data.getLastD ' ' == '/' then a ++ b
  else a ++ "/" ++ b

/-! ### converter.py: media-type classification -/

/-- converter.py, `get_media_type`: the video extension allow-list. -/
def video_extensions : List String :=
  [".mp4", ".mov", ".avi", ".mkv", ".webm", ".m4v", ".3gp"]

/-- converter.py, `get_media_type`: the image extension allow-list. -/
def image_extensions : List String :=
  [".jpg", ".jpeg", ".png", ".heic", ".heif", ".webp", ".bmp", ".tiff"]

/-- converter.py, `get_media_type`: classify a source file from its
lower-cased extension; unrecognized extensions default to video. -/
def get_media_type (file_path : String) : String :=
  let ext := strLower (pathSuffix file_path)
  if ext ∈ video_extensions then "video"
  else if ext ∈ image_extensions then "image"
  else "video"

/-! ### app.py: capability-hint parsing (upload_media, lines 106-114) -/

/-- Validity of the digit body accepted by Python `int()`: nonempty,
digits with single underscores strictly between digits. -/
def noDoubleUnderscore : List Char → Bool
  | c1 :: c2 :: rest => !(c1 == '_' && c2 == '_') && noDoubleUnderscore (c2 :: rest)
  | _ => true

/-- Digit-body validity for Python `int()` (after sign removal). -/
def pyDigitsValid (cs : List Char) : Bool :=
  !cs.isEmpty && cs.all (fun c => c.isDigit || c == '_')
    && cs.headD '_' != '_' && cs.getLastD '_' != '_'
    && noDoubleUnderscore cs

/-- Numeric value of a valid digit body (underscores skipped). -/
def digitsVal (cs : List Char) : Nat :=
  cs.foldl (fun acc c => if c == '_' then acc else acc * 10 + (c.toNat - 48)) 0

/-- Python `int(s)` on a string: strips surrounding whitespace, accepts
an optional sign then a digit body; `none` models a raised `ValueError`. -/
def pyToInt (s : String) : Option Int :=
  let cs := (((s.data.dropWhile Char.isWhitespace).reverse.dropWhile
    Char.isWhitespace).reverse)
  match cs with
  | '+' :: rest => if pyDigitsValid rest then some (Int.ofNat (digitsVal rest)) else none
  | '-' :: rest => if pyDigitsValid rest then some (-(Int.ofNat (digitsVal rest))) else none
  | _ => if pyDigitsValid cs then some (Int.ofNat (digitsVal cs)) else none

/-- app.py, `upload_media` lines 106-114: derive the `use_av1` policy
from the optional iOS-version capability hint.  A falsy hint (absent or
empty) skips parsing; a parse failure is caught and leaves the legacy
default. -/
def parse_use_av1 (ios_version : Option String) : Bool :=
  match ios_version with
  | none => false
  | some s =>
    if s = "" then false
    else
      match pyToInt (String.mk ((splitOnChar '.' s.data).headD [])) with
      | some major_version => if 16 ≤ major_version then true else false
      | none => false

/-! ### converter.py: encoder tiers and the external environment -/

/-- The six ffmpeg invocation sites of converter.py: the single HEVC
video attempt, the single AV1 video attempt, and the image attempts
hevc_nvenc (hardware), libx265 (software), JPEG (universal fallback) and
av1_nvenc-for-AVIF (hardware, modern policy). -/
inductive Tier where
  | videoHevc
  | videoAv1
  | imgNvenc
  | imgX265
  | imgJpeg
  | imgAvif
  deriving DecidableEq

/-- Outcome of one `subprocess.run` ffmpeg invocation: exit code 0,
nonzero exit code with stderr text, or a raised exception (including
`TimeoutExpired`) with its `str(e)` text. -/
inductive RunOutcome where
  | ok
  | fail (stderr : String)
  | exn (msg : String)
  deriving DecidableEq

/-- The external world converter.py and app.py interact with: encoder
invocations, `os.path.exists`, and `os.path.getsize` (an `Except.error m`
answer models a raised exception with text `m`). -/
structure Env where
  run : Tier → RunOutcome
  fileExists : String → Bool
  getsize : String → Except String Nat

/-- Result of one converter.py `convert_*` function: the returned
(success, error) pair plus the ordered list of encoder invocations it
performed (the observable calls to the external transcoder). -/
structure ConvResult where
  ok : Bool
  err : String
  calls : List Tier
  deriving DecidableEq

/-- converter.py, `convert_video`: a single hevc_nvenc attempt; nonzero
exit returns its stderr, an exception returns its text. -/
def convert_video (env : Env) (input_path output_path : String) : ConvResult :=
  match env.run Tier.videoHevc with
  | .ok => ConvResult.mk true "" [Tier.videoHevc]
  | .fail stderr => ConvResult.mk false stderr [Tier.videoHevc]
  | .exn msg => ConvResult.mk false msg [Tier.videoHevc]

/-- converter.py, `convert_video_av1`: a single av1_nvenc attempt. -/
def convert_video_av1 (env : Env) (input_path output_path : String) : ConvResult :=
  match env.run Tier.videoAv1 with
  | .ok => ConvResult.mk true "" [Tier.videoAv1]
  | .fail stderr => ConvResult.mk false stderr [Tier.videoAv1]
  | .exn msg => ConvResult.mk false msg [Tier.videoAv1]

/-- converter.py, `convert_image`: hevc_nvenc, then libx265 on nonzero
exit, then JPEG on nonzero exit; a raised exception at any attempt is
caught by the outer handler and returned as failure with its text. -/
def convert_image (env : Env) (input_path output_path : String) : ConvResult :=
  match env.run Tier.imgNvenc with
  | .ok => ConvResult.mk true "" [Tier.imgNvenc]
  | .exn msg => ConvResult.mk false msg [Tier.imgNvenc]
  | .fail _ =>
    match env.run Tier.imgX265 with
    | .ok => ConvResult.mk true "" [Tier.imgNvenc, Tier.imgX265]
    | .exn msg => ConvResult.mk false msg [Tier.imgNvenc, Tier.imgX265]
    | .fail _ =>
      match env.run Tier.imgJpeg with
      | .ok => ConvResult.mk true "" [Tier.imgNvenc, Tier.imgX265, Tier.imgJpeg]
      | .exn msg => ConvResult.mk false msg [Tier.imgNvenc, Tier.imgX265, Tier.imgJpeg]
      | .fail stderr =>
        ConvResult.mk false stderr [Tier.imgNvenc, Tier.imgX265, Tier.imgJpeg]

/-- converter.py, `convert_image_av1`: one av1_nvenc attempt; on nonzero
exit it falls back to the whole `convert_image` cascade. -/
def convert_image_av1 (env : Env) (input_path output_path : String) : ConvResult :=
  match env.run Tier.imgAvif with
  | .ok => ConvResult.mk true "" [Tier.imgAvif]
  | .exn msg => ConvResult.mk false msg [Tier.imgAvif]
  | .fail _ =>
    let r := convert_image env input_path output_path
    ConvResult.mk r.ok r.err (Tier.imgAvif :: r.calls)

/-- The (success, output_path, error) triple `convert_media` returns,
plus the ordered encoder-invocation trace. -/
structure MediaResult where
  success : Bool
  output_path : String
  error : String
  calls : List Tier
  deriving DecidableEq

/-- converter.py line 247, the shared final return of `convert_media`:
`(True, output_path, "") if success else (False, "", error)`. -/
def mkResult (success : Bool) (output_path error : String) (calls : List Tier) :
    MediaResult :=
  if success then MediaResult.mk true output_path "" calls
  else MediaResult.mk false "" error calls

/-- converter.py, `convert_media`: classify the input, pick the encoder
per policy, run it, fall back from AVIF to HEIC for modern-policy
images, check for a stale JPEG fallback file when the image cascade
failed, and return the final triple. -/
def convert_media (env : Env) (input_path output_dir : String) (use_av1 : Bool) :
    MediaResult :=
  let media_type := get_media_type input_path
  let input_name := pathStem input_path
  if media_type = "video" then
    if use_av1 then
      let output_path := osPathJoin output_dir (input_name ++ "_av1.mp4")
      let r := convert_video_av1 env input_path output_path
      mkResult r.ok output_path r.err r.calls
    else
      let output_path := osPathJoin output_dir (input_name ++ "_hevc.mp4")
      let r := convert_video env input_path output_path
      mkResult r.ok output_path r.err r.calls
  else
    if use_av1 then
      let output_path := osPathJoin output_dir (input_name ++ "_compressed.avif")
      let r := convert_image_av1 env input_path output_path
      if r.ok && env.fileExists output_path then
        MediaResult.mk true output_path "" r.calls
      else
        let output_path2 := osPathJoin output_dir (input_name ++ "_compressed.heic")
        let r2 := convert_image env input_path output_path2
        let jpg_path := osPathJoin output_dir (input_name ++ "_compressed.jpg")
        if !r2.ok && env.fileExists jpg_path then
          mkResult true jpg_path "" (r.calls ++ r2.calls)
        else
          mkResult r2.ok output_path2 r2.err (r.calls ++ r2.calls)
    else
      let output_path := osPathJoin output_dir (input_name ++ "_compressed.heic")
      let r := convert_image env input_path output_path
      let jpg_path := osPathJoin output_dir (input_name ++ "_compressed.jpg")
      if !r.ok && env.fileExists jpg_path then
        mkResult true jpg_path "" r.calls
      else
        mkResult r.ok output_path r.err r.calls

/-! ### app.py: the background conversion task and the endpoints -/

/-- app.py: the `CONVERTED_DIR` constant. -/
def CONVERTED_DIR : String := "converted"

/-- app.py, `process_conversion` after the initial status update: run
`convert_media`; on success stat the output and mark completed; a raised
`os.path.getsize` exception is caught by the enclosing handler and marks
the job failed with the exception text; a conversion failure marks the
job failed with the returned error. -/
def process_finish (env : Env) (jobs : Jobs) (job_id input_path : String)
    (use_av1 : Bool) : Jobs :=
  let r := convert_media env input_path CONVERTED_DIR use_av1
  if r.success then
    match env.getsize r.output_path with
    | Except.ok converted_size => set_completed jobs job_id r.output_path converted_size
    | Except.error msg => set_error jobs job_id msg
  else
    set_error jobs job_id r.error

/-- app.py, `process_conversion`: mark the job processing, then finish
as `process_finish`. -/
def process_conversion (env : Env) (jobs : Jobs) (job_id input_path : String)
    (use_av1 : Bool) : Jobs :=
  process_finish env (update_status jobs job_id JobStatus.processing)
    job_id input_path use_av1

/-- The complete sequence of job-store states the program produces for
one job: after `create_job` at upload, after the `update_status` to
Processing, and after the final terminal update of `process_conversion`.
No other code mutates the store for this job id. -/
def lifecycle_states (env : Env) (jobs0 : Jobs) (job_id original_path input_path : String)
    (original_size : Nat) (use_av1 : Bool) : List Jobs :=
  let s0 := (create_job jobs0 job_id original_path original_size).2
  let s1 := update_status s0 job_id JobStatus.processing
  [s0, s1, process_finish env s1 job_id input_path use_av1]

/-- Result of the `GET /download/{job_id}` endpoint: an HTTPException
with status code and detail, or a FileResponse with path, media type and
filename. -/
inductive DownloadResult where
  | httpError (code : Nat) (detail : String)
  | fileResponse (path media_type filename : String)
  deriving DecidableEq

/-- app.py, `download_media`: 404 for an unknown id, 400 when the job is
not yet completed, 404 when the converted file is missing, otherwise a
file response whose media type is derived from the converted file's
extension (".avif" maps to image/avif, everything else to video/mp4). -/
def download_media (env : Env) (jobs : Jobs) (job_id : String) : DownloadResult :=
  match get_job jobs job_id with
  | none => DownloadResult.httpError 404 "Job not found"
  | some job =>
    if job.status ≠ JobStatus.completed then
      DownloadResult.httpError 400 ("Job not ready. Current status: " ++ job.status.value)
    else if !env.fileExists job.converted_path then
      DownloadResult.httpError 404 "Converted file not found"
    else
      let file_ext := strLower (pathSuffix job.converted_path)
      let media_type := if file_ext = ".avif" then "image/avif" else "video/mp4"
      DownloadResult.fileResponse job.converted_path media_type
        (pathName job.converted_path)

/-! ### Helper lemmas -/

theorem string_data_append (s t : String) : (s ++ t).data = s.data ++ t.data := by
  cases s; cases t; rfl

theorem string_append_ne_empty (s t : String) (h : t ≠ "") : s ++ t ≠ "" := by
  intro he
  apply h
  apply String.ext
  have hd : s.data ++ t.data = ([] : List Char) := by
    rw [← string_data_append, he]
  exact (List.append_eq_nil.mp hd).2

theorem osPathJoin_ne_empty (a b : String) (hb : b ≠ "") : osPathJoin a b ≠ "" := by
  unfold osPathJoin
  split
  · exact hb
  · split
    · exact hb
    · split
      · exact string_append_ne_empty _ _ hb
      · exact string_append_ne_empty _ _ hb

theorem mkResult_calls (s : Bool) (out err : String) (calls : List Tier) :
    (mkResult s out err calls).calls = calls := by
  cases s <;> rfl

theorem mkResult_success (s : Bool) (out err : String) (calls : List Tier) :
    (mkResult s out err calls).success = s := by
  cases s <;> rfl

/-- The shape `convert_media` guarantees on its (success, output, error)
triple: success comes with a non-empty output and an empty error text,
failure comes with an empty output. -/
def shapeOk (m : MediaResult) : Prop :=
  (m.success = true → m.output_path ≠ "" ∧ m.error = "") ∧
  (m.success = false → m.output_path = "")

theorem mkResult_shapeOk (s : Bool) (out err : String) (calls : List Tier)
    (hout : out ≠ "") : shapeOk (mkResult s out err calls) := by
  cases s <;> simp [mkResult, shapeOk, hout]

theorem suffixed_ne_empty (stem suf : String) (h : suf ≠ "") : stem ++ suf ≠ "" :=
  string_append_ne_empty stem suf h

theorem convert_media_shapeOk (env : Env) (input_path output_dir : String)
    (use_av1 : Bool) : shapeOk (convert_media env input_path output_dir use_av1) := by
  unfold convert_media
  dsimp only
  split
  · split
    · exact mkResult_shapeOk _ _ _ _
        (osPathJoin_ne_empty _ _ (suffixed_ne_empty _ _ (by decide)))
    · exact mkResult_shapeOk _ _ _ _
        (osPathJoin_ne_empty _ _ (suffixed_ne_empty _ _ (by decide)))
  · split
    · split
      · constructor
        · intro _
          exact ⟨osPathJoin_ne_empty _ _ (suffixed_ne_empty _ _ (by decide)), rfl⟩
        · intro h
          simp at h
      · split
        · exact mkResult_shapeOk _ _ _ _
            (osPathJoin_ne_empty _ _ (suffixed_ne_empty _ _ (by decide)))
        · exact mkResult_shapeOk _ _ _ _
            (osPathJoin_ne_empty _ _ (suffixed_ne_empty _ _ (by decide)))
    · split
      · exact mkResult_shapeOk _ _ _ _
          (osPathJoin_ne_empty _ _ (suffixed_ne_empty _ _ (by decide)))
      · exact mkResult_shapeOk _ _ _ _
          (osPathJoin_ne_empty _ _ (suffixed_ne_empty _ _ (by decide)))

/-- The video and image allow-lists are disjoint. -/
theorem vid_img_disjoint : ∀ e ∈ image_extensions, e ∉ video_extensions := by decide

theorem get_media_type_eq (p : String) :
    get_media_type p =
      if strLower (pathSuffix p) ∈ video_extensions then "video"
      else if strLower (pathSuffix p) ∈ image_extensions then "image"
      else "video" := rfl

/-- A concrete environment in which every encoder invocation succeeds,
every file exists, and every size query returns 5 bytes. -/
def envAllOk : Env :=
  Env.mk (fun _ => RunOutcome.ok) (fun _ => true) (fun _ => Except.ok 5)

/-- A concrete empty job store. -/
def emptyStore : Jobs := fun _ => none

/-! ### Claims -/

/-- C7: media-type classification is a deterministic, total function of
the source file extension alone: allow-listed video extensions classify
as video, allow-listed image extensions classify as image, and every
unrecognized extension classifies as video by default; in particular
.mp4 is video, .heic is image, .xyz is video. -/
theorem C7_media_type_classification :
    (∀ p : String, strLower (pathSuffix p) ∈ video_extensions → get_media_type p = "video") ∧
    (∀ p : String, strLower (pathSuffix p) ∈ image_extensions → get_media_type p = "image") ∧
    (∀ p : String, strLower (pathSuffix p) ∉ video_extensions →
      strLower (pathSuffix p) ∉ image_extensions → get_media_type p = "video") ∧
    get_media_type "a.mp4" = "video" ∧
    get_media_type "a.heic" = "image" ∧
    get_media_type "a.xyz" = "video" := by
  refine ⟨?_, ?_, ?_, by decide, by decide, by decide⟩
  · intro p h
    rw [get_media_type_eq, if_pos h]
  · intro p h
    rw [get_media_type_eq, if_neg (vid_img_disjoint _ h), if_pos h]
  · intro p h1 h2
    rw [get_media_type_eq, if_neg h1, if_neg h2]

theorem C7_witness :
    get_media_type "b.mp4" = "video" ∧ get_media_type "b.heic" = "image" :=
  ⟨C7_media_type_classification.1 "b.mp4" (by decide),
   C7_media_type_classification.2.1 "b.heic" (by decide)⟩

/-- C5: the capability-hint-to-policy mapping is a pure, total function
of the hint: a hint whose leading integer component is at least 16
selects the modern (AV1) policy, while "15.5", "", "abc" and a missing
hint all select the legacy (HEVC) policy, and a hint that fails to parse
degrades to legacy instead of raising. -/
theorem C5_policy_mapping :
    parse_use_av1 (some "17.2") = true ∧
    parse_use_av1 (some "15.5") = false ∧
    parse_use_av1 (some "") = false ∧
    parse_use_av1 (some "abc") = false ∧
    parse_use_av1 none = false ∧
    (∀ (s : String) (n : Int), pyToInt (String.mk ((splitOnChar '.' s.data).headD [])) = some n → 16 ≤ n →
      parse_use_av1 (some s) = true) ∧
    (∀ s : String, pyToInt (String.mk ((splitOnChar '.' s.data).headD [])) = none →
      parse_use_av1 (some s) = false) := by
  refine ⟨by decide, by decide, by decide, by decide, rfl, ?_, ?_⟩
  · intro s n h hn
    by_cases hs : s = ""
    · subst hs
      have hnone : pyToInt (String.mk ((splitOnChar '.' ("" : String).data).headD [])) = none := by decide
      rw [hnone] at h
      cases h
    · unfold parse_use_av1
      dsimp only
      rw [if_neg hs, h]
      dsimp only
      rw [if_pos hn]
  · intro s h
    unfold parse_use_av1
    dsimp only
    by_cases hs : s = ""
    · rw [if_pos hs]
    · rw [if_neg hs, h]

theorem C5_witness : parse_use_av1 (some "16.0") = true :=
  C5_policy_mapping.2.2.2.2.2.1 "16.0" 16 (by decide) (by decide)

/-- C9: every mutating job-store operation called with an absent job id
leaves the store completely unchanged, returns normally, and inserts no
entry. -/
theorem C9_absent_id_noop :
    ∀ (jobs : Jobs) (job_id : String) (status : JobStatus)
      (converted_path error_message : String) (converted_size : Nat),
      get_job jobs job_id = none →
      update_status jobs job_id status = jobs ∧
      set_completed jobs job_id converted_path converted_size = jobs ∧
      set_error jobs job_id error_message = jobs := by
  intro jobs job_id status cpath emsg csize h
  have h' : jobs job_id = none := h
  refine ⟨funext fun k => ?_, funext fun k => ?_, funext fun k => ?_⟩ <;>
    simp only [update_status, set_completed, set_error] <;>
    · split
      · next hk => rw [hk, h']; rfl
      · rfl

theorem C9_witness :
    update_status emptyStore "missing" JobStatus.processing = emptyStore ∧
    set_completed emptyStore "missing" "out.mp4" 3 = emptyStore ∧
    set_error emptyStore "missing" "oops" = emptyStore :=
  C9_absent_id_noop emptyStore "missing" JobStatus.processing "out.mp4" "oops" 3 rfl

/-- C10: convert_media returns exactly one of two shapes: on success the
triple (True, output, "") with a non-empty output path and empty error
text, on failure (False, "", error) with an empty output path; the
output path is non-empty exactly when the first component is True. -/
theorem C10_convert_media_shape :
    ∀ (env : Env) (input_path output_dir : String) (use_av1 : Bool),
      ((convert_media env input_path output_dir use_av1).success = true →
        (convert_media env input_path output_dir use_av1).output_path ≠ "" ∧
        (convert_media env input_path output_dir use_av1).error = "") ∧
      ((convert_media env input_path output_dir use_av1).success = false →
        (convert_media env input_path output_dir use_av1).output_path = "") ∧
      ((convert_media env input_path output_dir use_av1).output_path ≠ "" ↔
        (convert_media env input_path output_dir use_av1).success = true) := by
  intro env input_path output_dir use_av1
  obtain ⟨h1, h2⟩ := convert_media_shapeOk env input_path output_dir use_av1
  refine ⟨h1, h2, ?_, ?_⟩
  · intro hne
    cases hs : (convert_media env input_path output_dir use_av1).success
    · exact absurd (h2 hs) hne
    · rfl
  · intro hs
    exact (h1 hs).1

theorem C10_witness :
    (convert_media envAllOk "a.mp4" "converted" false).output_path ≠ "" ∧
    (convert_media envAllOk "a.mp4" "converted" false).error = "" :=
  (C10_convert_media_shape envAllOk "a.mp4" "converted" false).1 (by decide)

/-- C8: the download endpoint returns the converted file with a media
type derived from the output file's extension when the job is Completed
and the file exists; a 400 error when the job is not yet Completed; and
a 404 error when the job id is unknown or the converted file is
missing. -/
theorem C8_download_contract :
    ∀ (env : Env) (jobs : Jobs) (job_id : String),
      (get_job jobs job_id = none →
        download_media env jobs job_id = DownloadResult.httpError 404 "Job not found") ∧
      (∀ job, get_job jobs job_id = some job → job.status ≠ JobStatus.completed →
        download_media env jobs job_id = DownloadResult.httpError 400
          ("Job not ready. Current status: " ++ job.status.value)) ∧
      (∀ job, get_job jobs job_id = some job → job.status = JobStatus.completed →
        env.fileExists job.converted_path = false →
        download_media env jobs job_id =
          DownloadResult.httpError 404 "Converted file not found") ∧
      (∀ job, get_job jobs job_id = some job → job.status = JobStatus.completed →
        env.fileExists job.converted_path = true →
        download_media env jobs job_id = DownloadResult.fileResponse job.converted_path
          (if strLower (pathSuffix job.converted_path) = ".avif" then "image/avif"
           else "video/mp4") (pathName job.converted_path)) := by
  intro env jobs job_id
  refine ⟨?_, ?_, ?_, ?_⟩
  · intro h
    simp only [download_media, h]
  · intro job h hne
    simp only [download_media, h]
    rw [if_pos hne]
  · intro job h hst hfe
    simp only [download_media, h]
    rw [if_neg (not_not_intro hst), hfe]
    simp
  · intro job h hst hfe
    simp only [download_media, h]
    rw [if_neg (not_not_intro hst), hfe]
    simp

/-- A concrete completed job and a store holding it, for witnesses. -/
def jobDone : JobData :=
  JobData.mk "j1" JobStatus.completed "uploads/a.mp4" "converted/a_hevc.mp4" 10 5 ""

/-- A concrete one-job store, for witnesses. -/
def storeDone : Jobs := fun k => if k = "j1" then some jobDone else none

theorem C8_witness :
    download_media envAllOk storeDone "j1" =
      DownloadResult.fileResponse "converted/a_hevc.mp4" "video/mp4" "a_hevc.mp4" := by
  have h := (C8_download_contract envAllOk storeDone "j1").2.2.2 jobDone rfl rfl rfl
  rw [h]
  decide

/-- An environment in which every encoder invocation exits nonzero with
the diagnostic text assigned to its tier, no file exists, and every size
query raises. -/
def allFailEnv (diag : Tier → String) : Env :=
  Env.mk (fun t => RunOutcome.fail (diag t)) (fun _ => false) (fun _ => Except.error "stat")

theorem convert_video_allFail (diag : Tier → String) (i o : String) :
    convert_video (allFailEnv diag) i o =
      ConvResult.mk false (diag Tier.videoHevc) [Tier.videoHevc] := rfl

theorem convert_video_av1_allFail (diag : Tier → String) (i o : String) :
    convert_video_av1 (allFailEnv diag) i o =
      ConvResult.mk false (diag Tier.videoAv1) [Tier.videoAv1] := rfl

theorem convert_image_allFail (diag : Tier → String) (i o : String) :
    convert_image (allFailEnv diag) i o =
      ConvResult.mk false (diag Tier.imgJpeg)
        [Tier.imgNvenc, Tier.imgX265, Tier.imgJpeg] := rfl

theorem convert_image_av1_allFail (diag : Tier → String) (i o : String) :
    convert_image_av1 (allFailEnv diag) i o =
      ConvResult.mk false (diag Tier.imgJpeg)
        [Tier.imgAvif, Tier.imgNvenc, Tier.imgX265, Tier.imgJpeg] := rfl

/-- Under the all-fail environment, `convert_media` fails with the last
attempted tier's diagnostic, an empty output path, and the full attempt
trace of its branch. -/
theorem convert_media_allFail (diag : Tier → String) (input_path output_dir : String)
    (use_av1 : Bool) :
    convert_media (allFailEnv diag) input_path output_dir use_av1 =
      if get_media_type input_path = "video" then
        (if use_av1 then
          MediaResult.mk false "" (diag Tier.videoAv1) [Tier.videoAv1]
         else
          MediaResult.mk false "" (diag Tier.videoHevc) [Tier.videoHevc])
      else
        (if use_av1 then
          MediaResult.mk false "" (diag Tier.imgJpeg)
            [Tier.imgAvif, Tier.imgNvenc, Tier.imgX265, Tier.imgJpeg,
             Tier.imgNvenc, Tier.imgX265, Tier.imgJpeg]
         else
          MediaResult.mk false "" (diag Tier.imgJpeg)
            [Tier.imgNvenc, Tier.imgX265, Tier.imgJpeg]) := by
  by_cases hv : get_media_type input_path = "video" <;>
    cases use_av1 <;>
      simp [convert_media, hv, convert_video, convert_video_av1,
        convert_image, convert_image_av1, allFailEnv, mkResult]

/-- When `convert_media` fails, `process_conversion` on a freshly
created job resolves it to the error state carrying the returned error
text, with the destination fields untouched. -/
theorem process_conversion_fail_fresh (env : Env) (jobs0 : Jobs)
    (job_id original_path input_path : String) (original_size : Nat) (use_av1 : Bool)
    (h : (convert_media env input_path CONVERTED_DIR use_av1).success = false) :
    get_job (process_conversion env
        ((create_job jobs0 job_id original_path original_size).2)
        job_id input_path use_av1) job_id =
      some (JobData.mk job_id JobStatus.error original_path "" original_size 0
        (convert_media env input_path CONVERTED_DIR use_av1).error) := by
  simp [process_conversion, process_finish, h, set_error, update_status,
    create_job, get_job, freshJob]

/-- C4: when every configured tier's encoder call fails, the cascade as
a whole fails, the job ends in state Failed, the failure reason is the
diagnostic text of the last attempted tier, and no destination file
reference (path or size) is set on the job. -/
theorem C4_cascade_exhaustion :
    ∀ (diag : Tier → String) (jobs0 : Jobs)
      (job_id original_path input_path : String) (original_size : Nat) (use_av1 : Bool),
      ∃ job last,
        get_job (process_conversion (allFailEnv diag)
            ((create_job jobs0 job_id original_path original_size).2)
            job_id input_path use_av1) job_id = some job ∧
        (convert_media (allFailEnv diag) input_path CONVERTED_DIR use_av1).success
          = false ∧
        (convert_media (allFailEnv diag) input_path CONVERTED_DIR use_av1).calls.getLast?
          = some last ∧
        job.status = JobStatus.error ∧
        job.error_message = diag last ∧
        job.converted_path = "" ∧
        job.converted_size_bytes = 0 := by
  intro diag jobs0 job_id original_path input_path original_size use_av1
  have hcm := convert_media_allFail diag input_path CONVERTED_DIR use_av1
  have hsucc : (convert_media (allFailEnv diag) input_path CONVERTED_DIR use_av1).success
      = false := by
    rw [hcm]
    split <;> split <;> rfl
  have hget := process_conversion_fail_fresh (allFailEnv diag) jobs0 job_id original_path
    input_path original_size use_av1 hsucc
  have hlast : ∃ last,
      (convert_media (allFailEnv diag) input_path CONVERTED_DIR use_av1).calls.getLast?
        = some last ∧
      (convert_media (allFailEnv diag) input_path CONVERTED_DIR use_av1).error
        = diag last := by
    rw [hcm]
    split
    · split
      · exact ⟨Tier.videoAv1, rfl, rfl⟩
      · exact ⟨Tier.videoHevc, rfl, rfl⟩
    · split
      · exact ⟨Tier.imgJpeg, rfl, rfl⟩
      · exact ⟨Tier.imgJpeg, rfl, rfl⟩
  obtain ⟨last, hl1, hl2⟩ := hlast
  exact ⟨_, last, hget, hsucc, hl1, rfl, hl2, rfl, rfl⟩

/-- Rank of a lifecycle state under the order
Pending < Processing < terminal. -/
def statusRank : JobStatus → Nat
  | .pending => 0
  | .processing => 1
  | .completed => 2
  | .error => 2

/-- The statuses one job shows across a sequence of store states. -/
def observed_statuses (states : List Jobs) (job_id : String) : List JobStatus :=
  states.filterMap (fun s => (get_job s job_id).map JobData.status)

/-- C6: the complete sequence of store updates for one job is Pending,
then Processing, then exactly one terminal state (Completed or Failed),
so the observed state sequence is non-decreasing under the order
Pending < Processing < terminal and never leaves a terminal state. -/
theorem C6_monotone_lifecycle :
    ∀ (env : Env) (jobs0 : Jobs) (job_id original_path input_path : String)
      (original_size : Nat) (use_av1 : Bool),
      ∃ t : JobStatus,
        observed_statuses (lifecycle_states env jobs0 job_id original_path input_path
          original_size use_av1) job_id =
          [JobStatus.pending, JobStatus.processing, t] ∧
        (t = JobStatus.completed ∨ t = JobStatus.error) ∧
        List.Chain' (fun a b => statusRank a ≤ statusRank b)
          [JobStatus.pending, JobStatus.processing, t] := by
  intro env jobs0 job_id original_path input_path original_size use_av1
  cases hs : (convert_media env input_path CONVERTED_DIR use_av1).success
  · refine ⟨JobStatus.error, ?_, Or.inr rfl, by simp [List.chain'_cons, List.chain'_singleton, statusRank]⟩
    simp [observed_statuses, lifecycle_states, process_finish, hs, set_error,
      update_status, create_job, get_job, freshJob]
  · cases hg : env.getsize
        (convert_media env input_path CONVERTED_DIR use_av1).output_path
    · refine ⟨JobStatus.error, ?_, Or.inr rfl, by simp [List.chain'_cons, List.chain'_singleton, statusRank]⟩
      simp [observed_statuses, lifecycle_states, process_finish, hs, hg, set_error,
        update_status, create_job, get_job, freshJob]
    · refine ⟨JobStatus.completed, ?_, Or.inl rfl, by simp [List.chain'_cons, List.chain'_singleton, statusRank]⟩
      simp [observed_statuses, lifecycle_states, process_finish, hs, hg, set_completed,
        update_status, create_job, get_job, freshJob]

/-- C3: whatever the environment does — tier failures, exceptions raised
by an encoder invocation, or a fault while statting the output — the
background task always resolves an existing job to a terminal state
(Completed or Failed), never leaving it in Processing; a conversion
failure records the returned error text, and a fault raised after a
successful conversion (while statting the output) records the fault's
text. -/
theorem C3_no_processing_leak :
    ∀ (env : Env) (jobs : Jobs) (job_id input_path : String) (use_av1 : Bool)
      (j0 : JobData), get_job jobs job_id = some j0 →
      ∃ job, get_job (process_conversion env jobs job_id input_path use_av1) job_id
          = some job ∧
        (job.status = JobStatus.completed ∨ job.status = JobStatus.error) ∧
        ((convert_media env input_path CONVERTED_DIR use_av1).success = false →
          job.status = JobStatus.error ∧
          job.error_message
            = (convert_media env input_path CONVERTED_DIR use_av1).error) ∧
        (∀ msg, (convert_media env input_path CONVERTED_DIR use_av1).success = true →
          env.getsize (convert_media env input_path CONVERTED_DIR use_av1).output_path
            = Except.error msg →
          job.status = JobStatus.error ∧ job.error_message = msg) := by
  intro env jobs job_id input_path use_av1 j0 h
  have h' : jobs job_id = some j0 := h
  cases hs : (convert_media env input_path CONVERTED_DIR use_av1).success
  · refine ⟨JobData.mk j0.job_id JobStatus.error j0.original_path j0.converted_path
      j0.original_size_bytes j0.converted_size_bytes
      (convert_media env input_path CONVERTED_DIR use_av1).error,
      ?_, Or.inr rfl, fun _ => ⟨rfl, rfl⟩, fun msg htrue _ => absurd htrue (by decide)⟩
    simp [process_conversion, process_finish, hs, set_error, update_status, get_job, h']
  · cases hg : env.getsize
        (convert_media env input_path CONVERTED_DIR use_av1).output_path
    · next m =>
      refine ⟨JobData.mk j0.job_id JobStatus.error j0.original_path j0.converted_path
        j0.original_size_bytes j0.converted_size_bytes m,
        ?_, Or.inr rfl, fun hfalse => absurd hfalse (by decide),
        fun msg _ hgm => by injection hgm with hm; exact ⟨rfl, hm⟩⟩
      simp [process_conversion, process_finish, hs, hg, set_error, update_status,
        get_job, h']
    · next n =>
      refine ⟨JobData.mk j0.job_id JobStatus.completed j0.original_path
        (convert_media env input_path CONVERTED_DIR use_av1).output_path
        j0.original_size_bytes n j0.error_message,
        ?_, Or.inl rfl, fun hfalse => absurd hfalse (by decide),
        fun msg _ hgm => by cases hgm⟩
      simp [process_conversion, process_finish, hs, hg, set_completed, update_status,
        get_job, h']

/-- A concrete environment in which every encoder invocation succeeds
but every size query raises with text "boom". -/
def envStatFails : Env :=
  Env.mk (fun _ => RunOutcome.ok) (fun _ => true) (fun _ => Except.error "boom")

theorem C3_witness :
    ∃ job, get_job (process_conversion envStatFails storeDone "j1" "a.mp4" false) "j1"
        = some job ∧
      (job.status = JobStatus.completed ∨ job.status = JobStatus.error) ∧
      ((convert_media envStatFails "a.mp4" CONVERTED_DIR false).success = false →
        job.status = JobStatus.error ∧
        job.error_message = (convert_media envStatFails "a.mp4" CONVERTED_DIR false).error) ∧
      (∀ msg, (convert_media envStatFails "a.mp4" CONVERTED_DIR false).success = true →
        envStatFails.getsize
          (convert_media envStatFails "a.mp4" CONVERTED_DIR false).output_path
          = Except.error msg →
        job.status = JobStatus.error ∧ job.error_message = msg) :=
  C3_no_processing_leak envStatFails storeDone "j1" "a.mp4" false jobDone rfl

/-! ### Branch characterizations of convert_media for a generic environment -/

theorem convert_media_video_legacy (env : Env) (input_path output_dir : String)
    (hv : get_media_type input_path = "video") :
    convert_media env input_path output_dir false =
      mkResult
        (convert_video env input_path
          (osPathJoin output_dir (pathStem input_path ++ "_hevc.mp4"))).ok
        (osPathJoin output_dir (pathStem input_path ++ "_hevc.mp4"))
        (convert_video env input_path
          (osPathJoin output_dir (pathStem input_path ++ "_hevc.mp4"))).err
        (convert_video env input_path
          (osPathJoin output_dir (pathStem input_path ++ "_hevc.mp4"))).calls := by
  simp [convert_media, hv]

theorem convert_media_video_modern (env : Env) (input_path output_dir : String)
    (hv : get_media_type input_path = "video") :
    convert_media env input_path output_dir true =
      mkResult
        (convert_video_av1 env input_path
          (osPathJoin output_dir (pathStem input_path ++ "_av1.mp4"))).ok
        (osPathJoin output_dir (pathStem input_path ++ "_av1.mp4"))
        (convert_video_av1 env input_path
          (osPathJoin output_dir (pathStem input_path ++ "_av1.mp4"))).err
        (convert_video_av1 env input_path
          (osPathJoin output_dir (pathStem input_path ++ "_av1.mp4"))).calls := by
  simp [convert_media, hv]

theorem convert_media_image_legacy (env : Env) (input_path output_dir : String)
    (hv : ¬ get_media_type input_path = "video") :
    convert_media env input_path output_dir false =
      (if !(convert_image env input_path
            (osPathJoin output_dir (pathStem input_path ++ "_compressed.heic"))).ok
          && env.fileExists (osPathJoin output_dir (pathStem input_path ++ "_compressed.jpg"))
       then
        mkResult true (osPathJoin output_dir (pathStem input_path ++ "_compressed.jpg")) ""
          (convert_image env input_path
            (osPathJoin output_dir (pathStem input_path ++ "_compressed.heic"))).calls
       else
        mkResult
          (convert_image env input_path
            (osPathJoin output_dir (pathStem input_path ++ "_compressed.heic"))).ok
          (osPathJoin output_dir (pathStem input_path ++ "_compressed.heic"))
          (convert_image env input_path
            (osPathJoin output_dir (pathStem input_path ++ "_compressed.heic"))).err
          (convert_image env input_path
            (osPathJoin output_dir (pathStem input_path ++ "_compressed.heic"))).calls) := by
  simp [convert_media, hv]

theorem convert_media_image_modern (env : Env) (input_path output_dir : String)
    (hv : ¬ get_media_type input_path = "video") :
    convert_media env input_path output_dir true =
      (if (convert_image_av1 env input_path
            (osPathJoin output_dir (pathStem input_path ++ "_compressed.avif"))).ok
          && env.fileExists (osPathJoin output_dir (pathStem input_path ++ "_compressed.avif"))
       then
        MediaResult.mk true
          (osPathJoin output_dir (pathStem input_path ++ "_compressed.avif")) ""
          (convert_image_av1 env input_path
            (osPathJoin output_dir (pathStem input_path ++ "_compressed.avif"))).calls
       else if !(convert_image env input_path
            (osPathJoin output_dir (pathStem input_path ++ "_compressed.heic"))).ok
          && env.fileExists (osPathJoin output_dir (pathStem input_path ++ "_compressed.jpg"))
       then
        mkResult true (osPathJoin output_dir (pathStem input_path ++ "_compressed.jpg")) ""
          ((convert_image_av1 env input_path
            (osPathJoin output_dir (pathStem input_path ++ "_compressed.avif"))).calls ++
           (convert_image env input_path
            (osPathJoin output_dir (pathStem input_path ++ "_compressed.heic"))).calls)
       else
        mkResult
          (convert_image env input_path
            (osPathJoin output_dir (pathStem input_path ++ "_compressed.heic"))).ok
          (osPathJoin output_dir (pathStem input_path ++ "_compressed.heic"))
          (convert_image env input_path
            (osPathJoin output_dir (pathStem input_path ++ "_compressed.heic"))).err
          ((convert_image_av1 env input_path
            (osPathJoin output_dir (pathStem input_path ++ "_compressed.avif"))).calls ++
           (convert_image env input_path
            (osPathJoin output_dir (pathStem input_path ++ "_compressed.heic"))).calls)) := by
  simp [convert_media, hv]

/-! ### Non-empty failure diagnostics under a well-formed environment -/

theorem mkResult_fail_err (s : Bool) (out err : String) (calls : List Tier)
    (h : (mkResult s out err calls).success = false) :
    s = false ∧ (mkResult s out err calls).error = err := by
  cases s
  · exact ⟨rfl, rfl⟩
  · exact absurd h (by simp [mkResult])

theorem convert_video_err_ne (env : Env)
    (hf : ∀ t s, env.run t = RunOutcome.fail s → s ≠ "")
    (he : ∀ t m, env.run t = RunOutcome.exn m → m ≠ "")
    (i o : String) (hok : (convert_video env i o).ok = false) :
    (convert_video env i o).err ≠ "" := by
  cases h : env.run Tier.videoHevc
  · simp [convert_video, h] at hok
  · simp [convert_video, h]
    exact hf _ _ h
  · simp [convert_video, h]
    exact he _ _ h

theorem convert_video_av1_err_ne (env : Env)
    (hf : ∀ t s, env.run t = RunOutcome.fail s → s ≠ "")
    (he : ∀ t m, env.run t = RunOutcome.exn m → m ≠ "")
    (i o : String) (hok : (convert_video_av1 env i o).ok = false) :
    (convert_video_av1 env i o).err ≠ "" := by
  cases h : env.run Tier.videoAv1
  · simp [convert_video_av1, h] at hok
  · simp [convert_video_av1, h]
    exact hf _ _ h
  · simp [convert_video_av1, h]
    exact he _ _ h

theorem convert_image_err_ne (env : Env)
    (hf : ∀ t s, env.run t = RunOutcome.fail s → s ≠ "")
    (he : ∀ t m, env.run t = RunOutcome.exn m → m ≠ "")
    (i o : String) (hok : (convert_image env i o).ok = false) :
    (convert_image env i o).err ≠ "" := by
  cases h1 : env.run Tier.imgNvenc
  · simp [convert_image, h1] at hok
  · cases h2 : env.run Tier.imgX265
    · simp [convert_image, h1, h2] at hok
    · cases h3 : env.run Tier.imgJpeg
      · simp [convert_image, h1, h2, h3] at hok
      · simp [convert_image, h1, h2, h3]
        exact hf _ _ h3
      · simp [convert_image, h1, h2, h3]
        exact he _ _ h3
    · simp [convert_image, h1, h2]
      exact he _ _ h2
  · simp [convert_image, h1]
    exact he _ _ h1

theorem convert_image_av1_err_ne (env : Env)
    (hf : ∀ t s, env.run t = RunOutcome.fail s → s ≠ "")
    (he : ∀ t m, env.run t = RunOutcome.exn m → m ≠ "")
    (i o : String) (hok : (convert_image_av1 env i o).ok = false) :
    (convert_image_av1 env i o).err ≠ "" := by
  cases h : env.run Tier.imgAvif
  · simp [convert_image_av1, h] at hok
  · simp [convert_image_av1, h] at hok ⊢
    exact convert_image_err_ne env hf he i o hok
  · simp [convert_image_av1, h]
    exact he _ _ h

/-- When `convert_media` fails, its surfaced error text is a diagnostic
produced by the environment, hence non-empty under a well-formed
environment. -/
theorem convert_media_err_ne (env : Env)
    (hf : ∀ t s, env.run t = RunOutcome.fail s → s ≠ "")
    (he : ∀ t m, env.run t = RunOutcome.exn m → m ≠ "")
    (input_path output_dir : String) (use_av1 : Bool)
    (hs : (convert_media env input_path output_dir use_av1).success = false) :
    (convert_media env input_path output_dir use_av1).error ≠ "" := by
  by_cases hv : get_media_type input_path = "video"
  · cases use_av1
    · rw [convert_media_video_legacy env input_path output_dir hv] at hs ⊢
      obtain ⟨hr, herr⟩ := mkResult_fail_err _ _ _ _ hs
      rw [herr]
      exact convert_video_err_ne env hf he _ _ hr
    · rw [convert_media_video_modern env input_path output_dir hv] at hs ⊢
      obtain ⟨hr, herr⟩ := mkResult_fail_err _ _ _ _ hs
      rw [herr]
      exact convert_video_av1_err_ne env hf he _ _ hr
  · cases use_av1
    · rw [convert_media_image_legacy env input_path output_dir hv] at hs ⊢
      split at hs
      · exact absurd hs (by simp [mkResult])
      · next hc =>
        rw [if_neg hc]
        obtain ⟨hr, herr⟩ := mkResult_fail_err _ _ _ _ hs
        rw [herr]
        exact convert_image_err_ne env hf he _ _ hr
    · rw [convert_media_image_modern env input_path output_dir hv] at hs ⊢
      split at hs
      · simp at hs
      · next hc1 =>
        rw [if_neg hc1]
        split at hs
        · exact absurd hs (by simp [mkResult])
        · next hc2 =>
          rw [if_neg hc2]
          obtain ⟨hr, herr⟩ := mkResult_fail_err _ _ _ _ hs
          rw [herr]
          exact convert_image_err_ne env hf he _ _ hr

/-- The per-job field invariant: destination fields are populated
exactly in the Completed state, a non-empty failure reason exactly in
the Failed state, and transient states carry neither. -/
def jobInv (j : JobData) : Prop :=
  (j.status = JobStatus.completed ↔
    (j.converted_path ≠ "" ∧ j.converted_size_bytes ≠ 0)) ∧
  (j.status = JobStatus.error ↔ j.error_message ≠ "") ∧
  ((j.status = JobStatus.pending ∨ j.status = JobStatus.processing) →
    (j.converted_path = "" ∧ j.converted_size_bytes = 0 ∧ j.error_message = ""))

/-- Well-formedness of the external environment: the transcoder's
failure diagnostics and exception texts are non-empty, and statted
converted files have positive size.  These are facts about ffmpeg and
the filesystem, not about the program under verification. -/
def EnvWF (env : Env) : Prop :=
  (∀ t s, env.run t = RunOutcome.fail s → s ≠ "") ∧
  (∀ t m, env.run t = RunOutcome.exn m → m ≠ "") ∧
  (∀ p m, env.getsize p = Except.error m → m ≠ "") ∧
  (∀ p n, env.getsize p = Except.ok n → 0 < n)

/-- `process_finish` touches only its own job id. -/
theorem process_finish_other (env : Env) (jobs : Jobs) (job_id input_path : String)
    (use_av1 : Bool) (k : String) (hk : ¬ k = job_id) :
    process_finish env jobs job_id input_path use_av1 k = jobs k := by
  unfold process_finish
  split
  · cases env.getsize (convert_media env input_path CONVERTED_DIR use_av1).output_path <;>
      simp [set_completed, set_error, hk]
  · simp [set_error, hk]

/-- C1: for every job in the store, across the complete lifecycle of a
newly uploaded job, the destination fields (converted path and size) are
populated if and only if the state is Completed, the failure reason is
non-empty if and only if the state is Failed, and in Pending and
Processing neither is set — assuming the environment's diagnostics are
non-empty and converted files have positive size. -/
theorem C1_field_invariant :
    ∀ (env : Env), EnvWF env →
    ∀ (jobs0 : Jobs), (∀ k j, get_job jobs0 k = some j → jobInv j) →
    ∀ (job_id original_path input_path : String) (original_size : Nat) (use_av1 : Bool),
    ∀ s ∈ lifecycle_states env jobs0 job_id original_path input_path
        original_size use_av1,
    ∀ k j, get_job s k = some j → jobInv j := by
  intro env hwf jobs0 h0 job_id original_path input_path original_size use_av1 s hs k j hkj
  obtain ⟨hwf1, hwf2, hwf3, hwf4⟩ := hwf
  simp only [lifecycle_states, List.mem_cons, List.not_mem_nil, or_false] at hs
  by_cases hk : k = job_id
  · subst hk
    rcases hs with hs | hs | hs
    · subst hs
      have heq : get_job ((create_job jobs0 k original_path original_size).2) k
          = some (freshJob k original_path original_size) := by
        simp [create_job, get_job]
      rw [heq] at hkj
      injection hkj with hj
      subst hj
      simp [jobInv, freshJob]
    · subst hs
      have heq : get_job (update_status
            ((create_job jobs0 k original_path original_size).2) k JobStatus.processing) k
          = some (JobData.mk k JobStatus.processing original_path "" original_size 0 "") := by
        simp [update_status, create_job, get_job, freshJob]
      rw [heq] at hkj
      injection hkj with hj
      subst hj
      simp [jobInv]
    · subst hs
      cases hsc : (convert_media env input_path CONVERTED_DIR use_av1).success
      · have heq : get_job (process_finish env (update_status
              ((create_job jobs0 k original_path original_size).2) k JobStatus.processing)
              k input_path use_av1) k
            = some (JobData.mk k JobStatus.error original_path "" original_size 0
                (convert_media env input_path CONVERTED_DIR use_av1).error) := by
          simp [process_finish, hsc, set_error, update_status, create_job, get_job, freshJob]
        rw [heq] at hkj
        injection hkj with hj
        subst hj
        have hm := convert_media_err_ne env hwf1 hwf2 input_path CONVERTED_DIR use_av1 hsc
        simp [jobInv, hm]
      · cases hg : env.getsize (convert_media env input_path CONVERTED_DIR use_av1).output_path
        · next m =>
          have heq : get_job (process_finish env (update_status
                ((create_job jobs0 k original_path original_size).2) k JobStatus.processing)
                k input_path use_av1) k
              = some (JobData.mk k JobStatus.error original_path "" original_size 0 m) := by
            simp [process_finish, hsc, hg, set_error, update_status, create_job,
              get_job, freshJob]
          rw [heq] at hkj
          injection hkj with hj
          subst hj
          have hm := hwf3 _ _ hg
          simp [jobInv, hm]
        · next n =>
          have heq : get_job (process_finish env (update_status
                ((create_job jobs0 k original_path original_size).2) k JobStatus.processing)
                k input_path use_av1) k
              = some (JobData.mk k JobStatus.completed original_path
                  (convert_media env input_path CONVERTED_DIR use_av1).output_path
                  original_size n "") := by
            simp [process_finish, hsc, hg, set_completed, update_status, create_job,
              get_job, freshJob]
          rw [heq] at hkj
          injection hkj with hj
          subst hj
          have hout := ((convert_media_shapeOk env input_path CONVERTED_DIR use_av1).1 hsc).1
          have hn : n ≠ 0 := (hwf4 _ _ hg).ne'
          simp [jobInv, hout, hn]
  · have hsk : get_job s k = get_job jobs0 k := by
      rcases hs with hs | hs | hs <;> subst hs
      · simp [create_job, get_job, hk]
      · simp [update_status, create_job, get_job, hk]
      · rw [get_job, process_finish_other env _ job_id input_path use_av1 k hk]
        simp [update_status, create_job, get_job, hk]
    rw [hsk] at hkj
    exact h0 k j hkj

/-- `envAllOk` is well-formed. -/
theorem envAllOk_WF : EnvWF envAllOk :=
  ⟨fun t s h => by simp [envAllOk] at h,
   fun t m h => by simp [envAllOk] at h,
   fun p m h => by simp [envAllOk] at h,
   fun p n h => by simp [envAllOk] at h; omega⟩

theorem C1_witness : jobInv (freshJob "j0" "uploads/in.mp4" 7) := by
  refine C1_field_invariant envAllOk envAllOk_WF emptyStore ?_ "j0" "uploads/in.mp4"
    "uploads/in.mp4" 7 false ((create_job emptyStore "j0" "uploads/in.mp4" 7).2) ?_
    "j0" (freshJob "j0" "uploads/in.mp4" 7) ?_
  · intro a b hb
    simp [get_job, emptyStore] at hb
  · simp [lifecycle_states]
  · simp [create_job, get_job]

/-! ### C2: the shape of the fallback cascade -/

/-- Reference execution of an ordered tier list: run the next tier,
advance exactly when it exits nonzero, stop on success or on a raised
exception. -/
def cascadeRun (run : Tier → RunOutcome) : List Tier → List Tier
  | [] => []
  | t :: ts =>
    match run t with
    | RunOutcome.fail _ => t :: cascadeRun run ts
    | _ => [t]

theorem cascadeRun_allFail (diag : Tier → String) (ts : List Tier) :
    cascadeRun (allFailEnv diag).run ts = ts := by
  induction ts with
  | nil => rfl
  | cons t ts ih =>
    have ih' : cascadeRun (fun u => RunOutcome.fail (diag u)) ts = ts := ih
    simp [cascadeRun, allFailEnv, ih']

/-- C2 (counterexample): the claim — for every media type and policy the
executed encoder-invocation sequence is some fixed ordered three-tier
list run by advancing exactly on failure — is false: for video under the
legacy policy the code makes exactly one hardware attempt, so when that
attempt fails no second or third tier exists to advance to. -/
theorem C2_counterexample :
    ¬ (∀ (input_path : String) (use_av1 : Bool), ∃ tiers : List Tier,
        tiers.length = 3 ∧ ∀ env : Env,
          (convert_media env input_path CONVERTED_DIR use_av1).calls
            = cascadeRun env.run tiers) := by
  intro hclaim
  obtain ⟨tiers, hlen, hall⟩ := hclaim "a.mp4" false
  have h := hall (allFailEnv (fun _ => "x"))
  rw [cascadeRun_allFail] at h
  have hcalls : (convert_media (allFailEnv (fun _ => "x")) "a.mp4" CONVERTED_DIR false).calls
      = [Tier.videoHevc] := rfl
  rw [hcalls] at h
  rw [← h] at hlen
  simp at hlen

theorem convert_video_calls_cascade (env : Env) (i o : String) :
    (convert_video env i o).calls = cascadeRun env.run [Tier.videoHevc] := by
  cases h : env.run Tier.videoHevc <;> simp [convert_video, cascadeRun, h]

theorem convert_video_av1_calls_cascade (env : Env) (i o : String) :
    (convert_video_av1 env i o).calls = cascadeRun env.run [Tier.videoAv1] := by
  cases h : env.run Tier.videoAv1 <;> simp [convert_video_av1, cascadeRun, h]

theorem convert_image_calls_cascade (env : Env) (i o : String) :
    (convert_image env i o).calls
      = cascadeRun env.run [Tier.imgNvenc, Tier.imgX265, Tier.imgJpeg] := by
  cases h1 : env.run Tier.imgNvenc <;> simp [convert_image, cascadeRun, h1]
  cases h2 : env.run Tier.imgX265 <;> simp [cascadeRun, h2]
  cases h3 : env.run Tier.imgJpeg <;> simp [cascadeRun, h3]

/-- Reference formulation of the encoder-invocation trace of the
modern-policy image path of `convert_media`: one AV1 hardware attempt
first; when that attempt succeeds and its AVIF output exists nothing
else runs; otherwise the three-tier HEVC cascade runs — twice when the
AV1 attempt exited nonzero, because `convert_image_av1` falls back to
`convert_image` internally and `convert_media` then invokes
`convert_image` again. -/
def modernImageCalls (env : Env) (input_path : String) : List Tier :=
  let avif_path := osPathJoin CONVERTED_DIR (pathStem input_path ++ "_compressed.avif")
  let hevc := cascadeRun env.run [Tier.imgNvenc, Tier.imgX265, Tier.imgJpeg]
  match env.run Tier.imgAvif with
  | RunOutcome.ok =>
    if env.fileExists avif_path then [Tier.imgAvif] else Tier.imgAvif :: hevc
  | RunOutcome.exn _ => Tier.imgAvif :: hevc
  | RunOutcome.fail _ =>
    if (convert_image env input_path avif_path).ok && env.fileExists avif_path then
      Tier.imgAvif :: hevc
    else (Tier.imgAvif :: hevc) ++ hevc

/-- The modern-policy image path executes exactly the reference trace
`modernImageCalls`. -/
theorem convert_media_image_modern_calls (env : Env) (input_path : String)
    (hv : ¬ get_media_type input_path = "video") :
    (convert_media env input_path CONVERTED_DIR true).calls
      = modernImageCalls env input_path := by
  rw [convert_media_image_modern env input_path CONVERTED_DIR hv]
  unfold modernImageCalls
  cases h : env.run Tier.imgAvif <;>
    simp [convert_image_av1, h, mkResult_calls, convert_image_calls_cascade] <;>
    (repeat' split) <;> simp [mkResult_calls]

/-- C2 (amended): each media-type/policy combination runs its own
attempt sequence, and only image/legacy is the three-tier cascade.
Video, under either policy, makes exactly one hardware-encoder attempt
with no software or universal fallback tier.  An image under the legacy
policy runs exactly the ordered three-tier hardware-software-universal
cascade (hevc_nvenc, then libx265, then JPEG), advancing exactly when a
tier exits nonzero and stopping on success or on a raised exception.
An image under the modern policy always attempts AV1 hardware first and
otherwise follows the `modernImageCalls` trace (falling back to the
HEVC cascade, twice when the AV1 attempt exited nonzero), and no fixed
three-tier sequence executed by advancing-on-failure reproduces its
behaviour. -/
theorem C2_amended :
    ∀ (env : Env) (input_path : String),
      (get_media_type input_path = "video" →
        (convert_media env input_path CONVERTED_DIR false).calls
          = cascadeRun env.run [Tier.videoHevc] ∧
        (convert_media env input_path CONVERTED_DIR true).calls
          = cascadeRun env.run [Tier.videoAv1]) ∧
      (get_media_type input_path = "image" →
        (convert_media env input_path CONVERTED_DIR false).calls
          = cascadeRun env.run [Tier.imgNvenc, Tier.imgX265, Tier.imgJpeg] ∧
        (convert_media env input_path CONVERTED_DIR true).calls
          = modernImageCalls env input_path ∧
        (convert_media env input_path CONVERTED_DIR true).calls.head?
          = some Tier.imgAvif ∧
        ¬ ∃ tiers : List Tier, tiers.length = 3 ∧ ∀ env' : Env,
            (convert_media env' input_path CONVERTED_DIR true).calls
              = cascadeRun env'.run tiers) := by
  intro env input_path
  constructor
  · intro hv
    constructor
    · rw [convert_media_video_legacy env input_path CONVERTED_DIR hv, mkResult_calls]
      exact convert_video_calls_cascade env _ _
    · rw [convert_media_video_modern env input_path CONVERTED_DIR hv, mkResult_calls]
      exact convert_video_av1_calls_cascade env _ _
  · intro hi
    have hv : ¬ get_media_type input_path = "video" := by
      rw [hi]
      decide
    refine ⟨?_, convert_media_image_modern_calls env input_path hv, ?_, ?_⟩
    · rw [convert_media_image_legacy env input_path CONVERTED_DIR hv]
      split <;> rw [mkResult_calls] <;> exact convert_image_calls_cascade env _ _
    · rw [convert_media_image_modern_calls env input_path hv]
      unfold modernImageCalls
      cases h : env.run Tier.imgAvif <;> simp [h] <;> (repeat' split) <;> simp
    · rintro ⟨tiers, hlen, hall⟩
      have h1 := hall (allFailEnv (fun _ => "z"))
      rw [cascadeRun_allFail, convert_media_image_modern_calls _ input_path hv] at h1
      have h3 : modernImageCalls (allFailEnv (fun _ => "z")) input_path
          = [Tier.imgAvif, Tier.imgNvenc, Tier.imgX265, Tier.imgJpeg,
             Tier.imgNvenc, Tier.imgX265, Tier.imgJpeg] := by
        unfold modernImageCalls
        simp [allFailEnv, convert_image, cascadeRun]
      rw [h3] at h1
      rw [← h1] at hlen
      simp at hlen

theorem C2_witness :
    (convert_media (allFailEnv (fun _ => "y")) "b.jpg" CONVERTED_DIR false).calls
      = cascadeRun (allFailEnv (fun _ => "y")).run
          [Tier.imgNvenc, Tier.imgX265, Tier.imgJpeg] ∧
    (convert_media (allFailEnv (fun _ => "y")) "b.jpg" CONVERTED_DIR true).calls
      = modernImageCalls (allFailEnv (fun _ => "y")) "b.jpg" :=
  ⟨((C2_amended (allFailEnv (fun _ => "y")) "b.jpg").2 (by decide)).1,
   ((C2_amended (allFailEnv (fun _ => "y")) "b.jpg").2 (by decide)).2.1⟩

end Helpike
